import Mathlib

/-!
Shallow embedding of `instacaption_enterprise.py` (InstaCaption AI):
the SQLite tables become lists of rows, the Streamlit session state a
record of optional fields (an attribute is `none` until assigned), and
each user/admin action a pure state-transforming function.  Timestamps
are opaque `Nat` values supplied by the caller.
-/

namespace InstaCaption

/-- A row of the `ad_configs` table (columns in source order:
`id, platform_name, api_key, priority, is_active, ads_per_use, min_coins`). -/
structure AdConfig where
  id : Nat
  platform_name : String
  api_key : String
  priority : Int
  is_active : Bool
  ads_per_use : Nat
  min_coins : Nat
deriving Repr, DecidableEq

/-- A row of the `users` table.  `last_active` is `none` until first stamped. -/
structure UserRow where
  id : Nat
  device_id : String
  caption_count : Nat
  ad_watched : Nat
  coins : Nat
  last_active : Option Nat
deriving Repr, DecidableEq

/-- A row of the `ad_events` table (the timestamp column is defaulted by the
database and plays no role in any claim, so it is omitted). -/
structure AdEvent where
  user_id : Nat
  platform_id : Nat
  coins_earned : Nat
deriving Repr, DecidableEq

/-- A row of the `captions` table (timestamp column likewise omitted). -/
structure CaptionRow where
  user_id : Nat
  image_hash : String
  caption : String
  hashtags : String
deriving Repr, DecidableEq

/-- The embedded database: the four tables of `init_db`. -/
structure DB where
  users : List UserRow
  ad_configs : List AdConfig
  ad_events : List AdEvent
  captions : List CaptionRow
deriving Repr, DecidableEq

/-- The ordering used by `ORDER BY priority` on `ad_configs`. -/
def prioLe (a b : AdConfig) : Prop := a.priority ≤ b.priority

instance : DecidableRel prioLe := fun a b =>
  inferInstanceAs (Decidable (a.priority ≤ b.priority))

instance : IsTotal AdConfig prioLe := ⟨fun a b => Int.le_total a.priority b.priority⟩

instance : IsTrans AdConfig prioLe := ⟨fun _ _ _ h h' => Int.le_trans h h'⟩

/-- The rows of `ad_configs` whose `is_active` flag is set. -/
def activeConfigs (db : DB) : List AdConfig :=
  db.ad_configs.filter (fun c => c.is_active)

/-- `AdMonetizationEngine.get_active_ad_platforms`:
`SELECT * FROM ad_configs WHERE is_active=1 ORDER BY priority`, modelled as a
stable sort by priority of the active rows. -/
def get_active_ad_platforms (db : DB) : List AdConfig :=
  List.insertionSort prioLe (activeConfigs db)

/-- `AdMonetizationEngine.show_ads_to_user`: on no active platform return the
failure pair and leave the database unchanged; otherwise take the first
(lowest priority number) platform, credit its `min_coins` to the user row and
append one `ad_events` row with the same amount.  The blocking countdown and
the Streamlit rendering have no effect on the store and are not modelled. -/
def show_ads_to_user (db : DB) (user_id : Nat) : (Bool × String) × DB :=
  match get_active_ad_platforms db with
  | [] => ((false, "No active ad platforms configured"), db)
  | p :: _ =>
    let reward_coins := p.min_coins
    (((true, "Earned " ++ toString reward_coins ++ " coins!")),
      { db with
        users := db.users.map (fun u =>
          if u.id = user_id then
            { u with coins := u.coins + reward_coins, ad_watched := u.ad_watched + 1 }
          else u)
        ad_events := db.ad_events ++ [⟨user_id, p.id, reward_coins⟩] })

/-- The admin dashboard's "Add coins" action:
`UPDATE users SET coins = coins + ? WHERE id=?` — no `ad_events` row. -/
def adminAddCoins (db : DB) (user_id : Nat) (coins : Nat) : DB :=
  { db with
    users := db.users.map (fun u =>
      if u.id = user_id then { u with coins := u.coins + coins } else u) }

/-- The admin dashboard's "Save Configuration" action:
`INSERT INTO ad_configs ... VALUES (...)` — a fresh row appended to the table
(the caller supplies the autoincremented id inside `c`). -/
def insertAdConfig (db : DB) (c : AdConfig) : DB :=
  { db with ad_configs := db.ad_configs ++ [c] }

/-- The user-app registration on first visit:
`INSERT INTO users (device_id) VALUES (?)` — all counters take their column
defaults; `newId` is the autoincremented id. -/
def registerUser (db : DB) (newId : Nat) (device_id : String) : DB :=
  { db with users := db.users ++ [⟨newId, device_id, 0, 0, 0, none⟩] }

/-- `main_user_app`'s ad-requirement check:
`SELECT ads_per_use FROM ad_configs WHERE is_active=1 ORDER BY priority LIMIT 1`,
defaulting to `1` when the query returns no row. -/
def adsRequired (db : DB) : Nat :=
  match get_active_ad_platforms db with
  | [] => 1
  | p :: _ => p.ads_per_use

/-! ### Caption generator (`CaptionGenerator.generate_caption`)

The BLIP model call is an external boundary: the raw description string
`result` it returns is taken as the input of the embedded function, and
everything the source computes from it is modelled exactly. -/

/-- Accumulator recursion behind `pySplitWhitespace`: `cur` holds the
reversed characters of the word being read. -/
def pySplitWsAux : List Char → List Char → List String
  | [], cur => if cur = [] then [] else [String.mk cur.reverse]
  | c :: cs, cur =>
    if c.isWhitespace then
      (if cur = [] then [] else [String.mk cur.reverse]) ++ pySplitWsAux cs []
    else pySplitWsAux cs (c :: cur)

/-- Python `str.split()` with no argument: split on whitespace runs, dropping
empty pieces. -/
def pySplitWhitespace (s : String) : List String :=
  pySplitWsAux s.toList []

/-- Python `str.capitalize()`: first character uppercased, all remaining
characters lowercased. -/
def pyCapitalize (s : String) : String :=
  match s.toList with
  | [] => ""
  | c :: rest => String.mk (c.toUpper :: rest.map Char.toLower)

/-- Python `s.split(' ', 1)[1]`: the part of `s` after the first space
character, or `none` (an `IndexError`) when `s` contains no space. -/
def afterFirstSpace (s : String) : Option String :=
  match s.toList.dropWhile (fun c => c != ' ') with
  | [] => none
  | _ :: rest => some (String.mk rest)

/-- Python `s.split(',')[0]`: the part of `s` before the first comma
(`split` always returns at least one piece, so this never fails). -/
def beforeFirstComma (s : String) : String :=
  String.mk (s.toList.takeWhile (fun c => c != ','))

/-- The keyword selection of `generate_caption`:
`[word for word in result.split() if len(word) > 3][:5]`. -/
def keywordsOf (result : String) : List String :=
  ((pySplitWhitespace result).filter (fun w => w.length > 3)).take 5

/-- The hashtag derivation of `generate_caption`: the keywords each prefixed
with `#` and space-joined, then the literal `" #InstaAI #SocialMedia"`
appended. -/
def hashtagsOf (result : String) : String :=
  String.intercalate " " ((keywordsOf result).map (fun w => "#" ++ w)) ++ " #InstaAI #SocialMedia"

/-- The six style selectors offered by the UI, in source order; the first is
the default used for an unrecognized selector. -/
def styleNames : List String :=
  ["🤩 Smart", "😂 Funny", "💬 Inspirational", "➖ Minimalist", "💼 Professional", "🎭 Dramatic"]

/-- `CaptionGenerator.generate_caption`, as a function of the raw model
description.  The `styles` dict is built eagerly in the source, so the
`😂 Funny` template's `result.split(' ', 1)[1]` raises an `IndexError`
(modelled as `none`) for any description without a space, whatever style was
selected.  `styles.get(style, styles["🤩 Smart"])` is the lookup with
default. -/
def generate_caption (result : String) (style : String) : Option (String × String) :=
  match afterFirstSpace result with
  | none => none
  | some tail =>
    let smart := pyCapitalize result
    let funny := "LOL when I " ++ tail ++ " 😂"
    let inspirational := "In this moment: " ++ result ++ ". Cherish the journey. ✨"
    let minimalist := beforeFirstComma result
    let professional := "High-quality image showing: " ++ result
    let dramatic := "OMG! You won\x27t BELIEVE what happens when " ++ result ++ "!!!"
    let final_caption :=
      if style = "🤩 Smart" then smart
      else if style = "😂 Funny" then funny
      else if style = "💬 Inspirational" then inspirational
      else if style = "➖ Minimalist" then minimalist
      else if style = "💼 Professional" then professional
      else if style = "🎭 Dramatic" then dramatic
      else smart
    some (final_caption, hashtagsOf result)

/-! ### Streamlit session state and the end-user flow (`main_user_app`) -/

/-- `st.session_state` as seen by `main_user_app`: each attribute is `none`
until some statement assigns it.  `current_ad_coins` stands for
`st.session_state['current_ad']['coins']`. -/
structure SessionState where
  device_id : Option String
  coins : Option Nat
  caption_count : Option Nat
  ads_watched : Option Nat
  user_id : Option Nat
  current_ad_coins : Option Nat
deriving Repr, DecidableEq

/-- A freshly created Streamlit session: no attribute assigned yet. -/
def emptySession : SessionState := ⟨none, none, none, none, none, none⟩

/-- The session-initialization block of `main_user_app` (the body of
`if 'device_id' not in st.session_state:`): assigns `device_id`, `coins`,
`caption_count` and `ads_watched` — and nothing else. -/
def initSession (dev : String) (s : SessionState) : SessionState :=
  if s.device_id = none then
    { s with device_id := some dev, coins := some 0,
             caption_count := some 0, ads_watched := some 0 }
  else s

/-- The `disabled=` expression of the "✨ Generate Caption" button:
`st.session_state.caption_count % 3 == 0 and st.session_state.ads_watched < ads_required`. -/
def generateDisabled (caption_count ads_watched ads_required : Nat) : Bool :=
  caption_count % 3 == 0 && decide (ads_watched < ads_required)

/-- Whether the n-th caption request of a session (1-indexed) finds the
generate button disabled: at that point the session counter holds `n - 1`. -/
def blockedAtRequest (n ads_watched ads_required : Nat) : Bool :=
  generateDisabled (n - 1) ads_watched ads_required

/-- Outcome of one Streamlit interaction: `ok` for a completed handler,
`attrError a` for an `AttributeError` reading unassigned session attribute
`a`, `blocked` when the widget is disabled or absent, `modelError` for an
exception escaping the caption pipeline. -/
inductive StepResult (α : Type) where
  | ok : α → StepResult α
  | attrError : String → StepResult α
  | blocked : StepResult α
  | modelError : StepResult α
deriving Repr, DecidableEq

/-- The "✨ Generate Caption" click of `main_user_app`, for an upload whose
model description is `result` and whose content hash is `img_hash`, at wall
time `now`.  In source order: the `disabled` check reads `caption_count` and
`ads_watched`; the handler then runs `generate_caption`, inserts the caption
row using `st.session_state.user_id` (never assigned by any statement of the
program), updates the user row matched by `device_id`, and finally increments
the session counter. -/
def generate_caption_click (sess : SessionState) (db : DB)
    (result style img_hash : String) (now : Nat) : StepResult (SessionState × DB) :=
  match sess.caption_count with
  | none => .attrError "caption_count"
  | some cnt =>
    match sess.ads_watched with
    | none => .attrError "ads_watched"
    | some aw =>
      if generateDisabled cnt aw (adsRequired db) then .blocked
      else
        match generate_caption result style with
        | none => .modelError
        | some (caption, hashtags) =>
          match sess.user_id with
          | none => .attrError "user_id"
          | some uid =>
            match sess.device_id with
            | none => .attrError "device_id"
            | some dev =>
              let db' : DB :=
                { db with
                  captions := db.captions ++ [⟨uid, img_hash, caption, hashtags⟩]
                  users := db.users.map (fun u =>
                    if u.device_id = dev then
                      { u with caption_count := u.caption_count + 1,
                               last_active := some now }
                    else u) }
              .ok ({ sess with caption_count := some (cnt + 1) }, db')

/-! ### Business settings (`enterprise_admin_dashboard`, Settings tab) -/

/-- A JSON scalar as stored in `business_config.json`.  The premium price is
a float in the source; no arithmetic is ever performed on it, so it is kept
as its literal representation. -/
inductive JVal where
  | jnat : Nat → JVal
  | jflo : String → JVal
  | jstr : String → JVal
deriving Repr, DecidableEq

/-- The content of `business_config.json` as a JSON object: key/value pairs. -/
abbrev ConfigFile := List (String × JVal)

/-- The "Save Business Settings" handler: `open('business_config.json', 'w')`
truncates the file, then `json.dump` writes a fresh three-field object, so
the previous content `old` never flows into the result. -/
def saveBusinessSettings (free_tier_ads : Nat) (premium_price : String)
    (premium_benefits : String) (old : Option ConfigFile) : ConfigFile :=
  [("free_tier_ads", JVal.jnat free_tier_ads),
   ("premium_price", JVal.jflo premium_price),
   ("premium_benefits", JVal.jstr premium_benefits)]

/-! ### Per-user accounting invariant (spec §3) -/

/-- The `ad_events` rows belonging to user id `i`. -/
def eventsFor (db : DB) (i : Nat) : List AdEvent :=
  db.ad_events.filter (fun e => e.user_id == i)

/-- The spec-§3 invariant for one user row: coins equal the sum of the
`coins_earned` of the user's ad events, and the ad-watched counter equals
their number. -/
def userInvariant (db : DB) (u : UserRow) : Prop :=
  u.coins = ((eventsFor db u.id).map AdEvent.coins_earned).sum ∧
  u.ad_watched = (eventsFor db u.id).length

/-- The spec-§3 invariant over the whole database. -/
def dbInvariant (db : DB) : Prop := ∀ u ∈ db.users, userInvariant db u

instance (db : DB) (u : UserRow) : Decidable (userInvariant db u) :=
  inferInstanceAs (Decidable (_ ∧ _))

instance (db : DB) : Decidable (dbInvariant db) :=
  inferInstanceAs (Decidable (∀ u ∈ db.users, userInvariant db u))

/-! ### Concrete fixtures used to instantiate the theorems -/

/-- An active configuration with priority 2 (fixture). -/
def cfgEarly : AdConfig := ⟨1, "start.io", "key1", 2, true, 2, 3⟩

/-- An active configuration with priority 4 (fixture). -/
def cfgLate : AdConfig := ⟨2, "Unity Ads", "key2", 4, true, 1, 4⟩

/-- An active configuration with priority 3 (fixture). -/
def cfgMid : AdConfig := ⟨3, "Google AdMob", "key3", 3, true, 1, 5⟩

/-- A database with one user and no active platform: the only configuration
row is inactive (fixture). -/
def dbNoActive : DB :=
  ⟨[⟨1, "dev0", 0, 0, 0, none⟩], [⟨9, "AppLovin", "key9", 1, false, 1, 2⟩], [], []⟩

/-- A database with two active platforms, priorities 2 and 4 (fixture). -/
def dbTwoPlatforms : DB := ⟨[⟨1, "dev0", 0, 0, 0, none⟩], [cfgEarly, cfgLate], [], []⟩

/-- A database with one user and one active platform (fixture). -/
def dbOneUserOnePlatform : DB := ⟨[⟨1, "dev0", 0, 0, 0, none⟩], [cfgEarly], [], []⟩

/-- The user row used by the successful-generation fixture. -/
def userW : UserRow := ⟨5, "dev0", 2, 0, 0, none⟩

/-- A session consistent with `userW`, two captions already generated
(fixture; its `user_id` is assigned, which the program itself never does). -/
def sessW : SessionState := ⟨some "dev0", some 0, some 2, some 0, some 5, none⟩

/-- A database containing only `userW` and no ad platform (fixture). -/
def dbUserW : DB := ⟨[userW], [], [], []⟩

/-- The session obtained from `sessW` after one successful generation
(fixture). -/
def sessW2 : SessionState := ⟨some "dev0", some 0, some 3, some 0, some 5, none⟩

/-- The database obtained from `dbUserW` after `sessW`'s generate click on
the description `"a cat sits"` at time 7 (fixture). -/
def dbUserW2 : DB :=
  ⟨[⟨5, "dev0", 3, 0, 0, some 7⟩], [], [],
   [⟨5, "h0", "A cat sits", "#sits #InstaAI #SocialMedia"⟩]⟩

/-! ### Helper lemmas about the priority-ordered platform query -/

/-- The ordered active-platform query returns no row exactly when no active
configuration exists. -/
theorem get_active_eq_nil_iff (db : DB) :
    get_active_ad_platforms db = [] ↔ activeConfigs db = [] := by
  have hp : List.Perm (get_active_ad_platforms db) (activeConfigs db) :=
    List.perm_insertionSort prioLe (activeConfigs db)
  constructor
  · intro h
    rw [h] at hp
    exact hp.symm.eq_nil
  · intro h
    rw [h] at hp
    exact hp.eq_nil

/-- The first row of the ordered active-platform query is an active
configuration of minimal priority. -/
theorem head_active_min (db : DB) (p : AdConfig) (rest : List AdConfig)
    (h : get_active_ad_platforms db = p :: rest) :
    p ∈ activeConfigs db ∧ ∀ q ∈ activeConfigs db, p.priority ≤ q.priority := by
  have hs : List.Sorted prioLe (get_active_ad_platforms db) :=
    List.sorted_insertionSort prioLe (activeConfigs db)
  rw [h] at hs
  constructor
  · have hp : p ∈ get_active_ad_platforms db := by
      rw [h]; exact List.mem_cons_self p rest
    exact (List.mem_insertionSort prioLe).mp hp
  · intro q hq
    have hq2 : q ∈ p :: rest := by
      rw [← h]
      exact (List.mem_insertionSort prioLe).mpr hq
    rcases List.mem_cons.mp hq2 with rfl | hmem
    · exact le_refl _
    · exact List.rel_of_sorted_cons hs q hmem

/-- C6: with no active ad platform configured the end-user flow requires 1
ad; otherwise it requires the `ads_per_use` of the active configuration with
the lowest priority number. -/
theorem c6_ads_required_default (db : DB) :
    (activeConfigs db = [] → adsRequired db = 1) ∧
    ∀ p rest, get_active_ad_platforms db = p :: rest →
      adsRequired db = p.ads_per_use ∧
      p ∈ activeConfigs db ∧ ∀ q ∈ activeConfigs db, p.priority ≤ q.priority := by
  constructor
  · intro h
    have hnil : get_active_ad_platforms db = [] := (get_active_eq_nil_iff db).mpr h
    unfold adsRequired
    rw [hnil]
  · intro p rest h
    refine ⟨?_, head_active_min db p rest h⟩
    unfold adsRequired
    rw [h]

/-- C6 witness: a database with two active platforms, priorities 2 and 4. -/
theorem c6_ads_required_default_witness :
    (activeConfigs dbNoActive = [] → adsRequired dbNoActive = 1) ∧
    (adsRequired dbTwoPlatforms = 2 ∧
      cfgEarly ∈ activeConfigs dbTwoPlatforms ∧
      ∀ q ∈ activeConfigs dbTwoPlatforms, cfgEarly.priority ≤ q.priority) := by
  constructor
  · exact (c6_ads_required_default dbNoActive).1
  · have h := (c6_ads_required_default dbTwoPlatforms).2 cfgEarly [cfgLate] (by decide)
    exact ⟨h.1, h.2.1, h.2.2⟩

/-- C5: the ad reward operation fails (and changes nothing) exactly when no
active platform exists; otherwise it succeeds, selects an active
configuration of minimal priority, credits its `min_coins` to the user row
and appends one matching `ad_events` row. -/
theorem c5_show_ads_contract (db : DB) (user_id : Nat) :
    (activeConfigs db = [] →
      show_ads_to_user db user_id = ((false, "No active ad platforms configured"), db)) ∧
    (activeConfigs db ≠ [] → (show_ads_to_user db user_id).1.1 = true) ∧
    ∀ p rest, get_active_ad_platforms db = p :: rest →
      (show_ads_to_user db user_id).1.1 = true ∧
      p ∈ activeConfigs db ∧ (∀ q ∈ activeConfigs db, p.priority ≤ q.priority) ∧
      (show_ads_to_user db user_id).2 =
        { db with
          users := db.users.map (fun u =>
            if u.id = user_id then
              { u with coins := u.coins + p.min_coins, ad_watched := u.ad_watched + 1 }
            else u)
          ad_events := db.ad_events ++ [⟨user_id, p.id, p.min_coins⟩] } := by
  refine ⟨?_, ?_, ?_⟩
  · intro h
    have hnil : get_active_ad_platforms db = [] := (get_active_eq_nil_iff db).mpr h
    unfold show_ads_to_user
    rw [hnil]
  · intro h
    have hne : get_active_ad_platforms db ≠ [] := fun hnil =>
      h ((get_active_eq_nil_iff db).mp hnil)
    rcases hg : get_active_ad_platforms db with _ | ⟨p, rest⟩
    · exact absurd hg hne
    · unfold show_ads_to_user
      rw [hg]
  · intro p rest h
    refine ⟨?_, (head_active_min db p rest h).1, (head_active_min db p rest h).2, ?_⟩
    · unfold show_ads_to_user
      rw [h]
    · unfold show_ads_to_user
      rw [h]

/-- C5 witness: one user and one active platform. -/
theorem c5_show_ads_contract_witness :
    (activeConfigs dbOneUserOnePlatform ≠ [] →
      (show_ads_to_user dbOneUserOnePlatform 1).1.1 = true) ∧
    (activeConfigs dbNoActive = [] →
      show_ads_to_user dbNoActive 1 = ((false, "No active ad platforms configured"), dbNoActive)) :=
  ⟨(c5_show_ads_contract dbOneUserOnePlatform 1).2.1,
   (c5_show_ads_contract dbNoActive 1).1⟩

/-- C7: after inserting an active configuration `c` with priority `P`, the
ordered active read places `c` before every row with priority above `P` and
after every row with priority below `P`. -/
theorem c7_insert_priority_roundtrip (db : DB) (c : AdConfig) (hc : c.is_active = true) :
    c ∈ get_active_ad_platforms (insertAdConfig db c) ∧
    ∀ i j : Fin (get_active_ad_platforms (insertAdConfig db c)).length,
      ((get_active_ad_platforms (insertAdConfig db c)).get i = c →
        c.priority < ((get_active_ad_platforms (insertAdConfig db c)).get j).priority →
        i < j) ∧
      ((get_active_ad_platforms (insertAdConfig db c)).get i = c →
        ((get_active_ad_platforms (insertAdConfig db c)).get j).priority < c.priority →
        j < i) := by
  have hs : List.Sorted prioLe (get_active_ad_platforms (insertAdConfig db c)) :=
    List.sorted_insertionSort prioLe (activeConfigs (insertAdConfig db c))
  constructor
  · apply (List.mem_insertionSort prioLe).mpr
    unfold activeConfigs insertAdConfig
    simp [List.filter_append, hc]
  · intro i j
    constructor
    · intro hi hlt
      rcases lt_trichotomy i j with h | h | h
      · exact h
      · exact absurd hlt (by rw [h] at hi; rw [hi]; exact lt_irrefl _)
      · have := hs.rel_get_of_lt h
        rw [hi] at this
        exact absurd (lt_of_lt_of_le hlt this) (lt_irrefl _)
    · intro hi hlt
      rcases lt_trichotomy j i with h | h | h
      · exact h
      · exact absurd hlt (by rw [← h] at hi; rw [hi]; exact lt_irrefl _)
      · have := hs.rel_get_of_lt h
        rw [hi] at this
        exact absurd (lt_of_le_of_lt this hlt) (lt_irrefl _)

/-- C7 witness: inserting a priority-3 active row between priorities 2 and 4. -/
theorem c7_insert_priority_roundtrip_witness :
    cfgMid.is_active = true ∧
    cfgMid ∈ get_active_ad_platforms (insertAdConfig dbTwoPlatforms cfgMid) :=
  ⟨rfl, (c7_insert_priority_roundtrip dbTwoPlatforms cfgMid rfl).1⟩

/-- C3: the produced hashtag string is the space-join of at most five derived
tags — each a `#`-prefixed word of the description longer than three
characters, in description order — followed by the two fixed trailing tags;
and every caption the generator returns carries exactly this hashtag
string. -/
theorem c3_hashtag_shape (result : String) :
    (∃ ws : List String,
      List.Sublist ws (pySplitWhitespace result) ∧
      (∀ w ∈ ws, w.length > 3) ∧
      ws.length ≤ 5 ∧
      hashtagsOf result =
        String.intercalate " " (ws.map (fun w => "#" ++ w)) ++ " #InstaAI #SocialMedia") ∧
    ∀ style out, generate_caption result style = some out → out.2 = hashtagsOf result := by
  constructor
  · refine ⟨keywordsOf result, ?_, ?_, ?_, rfl⟩
    · exact (List.take_sublist _ _).trans (List.filter_sublist _)
    · intro w hw
      have hw2 := List.mem_of_mem_take hw
      exact of_decide_eq_true (List.mem_filter.mp hw2).2
    · show (List.take 5 _).length ≤ 5
      simp
  · intro style out h
    unfold generate_caption at h
    rcases hsp : afterFirstSpace result with _ | tail
    · rw [hsp] at h
      exact absurd h (by simp)
    · rw [hsp] at h
      simp only [Option.some.injEq] at h
      rw [← h]

/-- C3 witness: the hashtag shape instantiated at the description
`"a cat sits"`. -/
theorem c3_hashtag_shape_witness :
    (∃ ws : List String,
      List.Sublist ws (pySplitWhitespace "a cat sits") ∧
      (∀ w ∈ ws, w.length > 3) ∧
      ws.length ≤ 5 ∧
      hashtagsOf "a cat sits" =
        String.intercalate " " (ws.map (fun w => "#" ++ w)) ++ " #InstaAI #SocialMedia") ∧
    ∀ style out, generate_caption "a cat sits" style = some out →
      out.2 = hashtagsOf "a cat sits" :=
  c3_hashtag_shape "a cat sits"

/-- C4: an unrecognized style selector falls back to the default
`🤩 Smart` rendering, independently of the selector's value. -/
theorem c4_unknown_style_falls_back (result style : String) (h : style ∉ styleNames) :
    generate_caption result style = generate_caption result "🤩 Smart" := by
  simp only [styleNames, List.mem_cons, List.not_mem_nil, or_false, not_or] at h
  obtain ⟨h1, h2, h3, h4, h5, h6⟩ := h
  unfold generate_caption
  rcases afterFirstSpace result with _ | tail
  · rfl
  · simp [h1, h2, h3, h4, h5, h6]

/-- C4 witness: the selector `"casual"` is not one of the six styles and
produces the default rendering. -/
theorem c4_unknown_style_falls_back_witness :
    "casual" ∉ styleNames ∧
    generate_caption "a dog runs" "casual" = generate_caption "a dog runs" "🤩 Smart" :=
  ⟨by decide, c4_unknown_style_falls_back "a dog runs" "casual" (by decide)⟩

/-- C2 counterexample: the claim says requests whose 1-indexed number is not
a multiple of 3 are never blocked, yet with the default requirement of one ad
the very first request (session counter 0) finds the generate button
disabled, because the `disabled=` condition lacks the `caption_count > 0`
guard of the warning path. -/
theorem c2_counterexample_first_request_blocked :
    blockedAtRequest 1 0 1 = true ∧ 1 % 3 ≠ 0 := by decide

/-- C2 (amended): the n-th caption request (1-indexed) is blocked exactly
when the session counter `n - 1` is a multiple of 3 — requests 1, 4, 7, … —
and the session's ads-watched counter is below the required count; requests
3, 6, 9, … are never blocked. -/
theorem c2_gating_amended (n ads_watched ads_required : Nat) (hn : 1 ≤ n) :
    blockedAtRequest n ads_watched ads_required = true ↔
      ((n - 1) % 3 = 0 ∧ ads_watched < ads_required) := by
  unfold blockedAtRequest generateDisabled
  simp

/-- C2 witness: the fourth request with no ads watched and one required is
blocked. -/
theorem c2_gating_amended_witness :
    1 ≤ 4 ∧
    (blockedAtRequest 4 0 1 = true ↔ ((4 - 1) % 3 = 0 ∧ 0 < 1)) :=
  ⟨by decide, c2_gating_amended 4 0 1 (by decide)⟩

/-- C8: saving the business settings produces a file holding exactly the
three saved fields with their saved values, independently of any prior file
content: the lookup of any other key yields nothing. -/
theorem c8_settings_full_overwrite (ads : Nat) (price benefits : String)
    (old : Option ConfigFile) :
    saveBusinessSettings ads price benefits old = saveBusinessSettings ads price benefits none ∧
    (saveBusinessSettings ads price benefits old).map Prod.fst =
      ["free_tier_ads", "premium_price", "premium_benefits"] ∧
    (saveBusinessSettings ads price benefits old).lookup "free_tier_ads" =
      some (JVal.jnat ads) ∧
    (saveBusinessSettings ads price benefits old).lookup "premium_price" =
      some (JVal.jflo price) ∧
    (saveBusinessSettings ads price benefits old).lookup "premium_benefits" =
      some (JVal.jstr benefits) ∧
    ∀ k, k ∉ ["free_tier_ads", "premium_price", "premium_benefits"] →
      (saveBusinessSettings ads price benefits old).lookup k = none := by
  refine ⟨rfl, rfl, rfl, rfl, rfl, ?_⟩
  intro k hk
  simp only [List.mem_cons, List.not_mem_nil, or_false, not_or] at hk
  obtain ⟨h1, h2, h3⟩ := hk
  have e1 : (k == "free_tier_ads") = false := beq_eq_false_iff_ne.mpr h1
  have e2 : (k == "premium_price") = false := beq_eq_false_iff_ne.mpr h2
  have e3 : (k == "premium_benefits") = false := beq_eq_false_iff_ne.mpr h3
  simp [saveBusinessSettings, List.lookup, e1, e2, e3]

/-- C8 witness: a concrete save over a file that previously held an extra
field. -/
theorem c8_settings_full_overwrite_witness :
    ("legacy_field" ∉ ["free_tier_ads", "premium_price", "premium_benefits"]) ∧
    (saveBusinessSettings 2 "4.99" "no ads"
        (some [("legacy_field", JVal.jstr "x")])).lookup "legacy_field" = none :=
  ⟨by decide,
    (c8_settings_full_overwrite 2 "4.99" "no ads"
        (some [("legacy_field", JVal.jstr "x")])).2.2.2.2.2 "legacy_field" (by decide)⟩

/-- C10: the session-initialization block never assigns `user_id`, yet the
generate handler reads `st.session_state.user_id`; on a fresh session with
generation enabled (one active platform requiring 0 ads) the click aborts
with an `AttributeError` on `user_id` instead of completing. -/
theorem c10_user_id_never_initialized :
    (initSession "dev0" emptySession).user_id = none ∧
    generate_caption_click (initSession "dev0" emptySession)
      ⟨[⟨1, "dev0", 0, 0, 0, none⟩], [⟨1, "start.io", "key", 1, true, 0, 3⟩], [], []⟩
      "a cat sitting on a mat" "🤩 Smart" "hash0" 0 = .attrError "user_id" := by
  constructor
  · rfl
  · rfl

/-- One completed ad view preserves the per-user accounting invariant: the
credited coins and the watched-counter bump are matched by the appended
`ad_events` row. -/
theorem show_ads_preserves_invariant (db : DB) (uid : Nat) (hinv : dbInvariant db) :
    dbInvariant (show_ads_to_user db uid).2 := by
  rcases hg : get_active_ad_platforms db with _ | ⟨p, rest⟩
  · unfold show_ads_to_user
    rw [hg]
    exact hinv
  · unfold show_ads_to_user
    rw [hg]
    intro u2 hu2
    simp only [List.mem_map] at hu2
    obtain ⟨u, hu, rfl⟩ := hu2
    have hui := hinv u hu
    unfold userInvariant eventsFor at hui ⊢
    by_cases hidu : u.id = uid
    · subst hidu
      rw [if_pos rfl]
      dsimp only
      simp [List.filter_append, hui.1, hui.2]
    · rw [if_neg hidu]
      have hne : ((⟨uid, p.id, p.min_coins⟩ : AdEvent).user_id == u.id) = false :=
        beq_eq_false_iff_ne.mpr (fun h => hidu (by simpa using h.symm))
      simp [List.filter_append, hne, hui.1, hui.2]

/-- Registering a fresh user preserves the per-user accounting invariant,
provided no ad event already carries the fresh id. -/
theorem register_preserves_invariant (db : DB) (newId : Nat) (dev : String)
    (hinv : dbInvariant db) (hfresh : ∀ e ∈ db.ad_events, e.user_id ≠ newId) :
    dbInvariant (registerUser db newId dev) := by
  intro u hu
  rcases List.mem_append.mp hu with h | h
  · exact hinv u h
  · have hu2 : u = ⟨newId, dev, 0, 0, 0, none⟩ := by simpa using h
    subst hu2
    have hnil : eventsFor (registerUser db newId dev) newId = [] := by
      apply List.filter_eq_nil_iff.mpr
      intro e he
      simpa using hfresh e he
    unfold userInvariant
    dsimp only
    rw [hnil]
    exact ⟨rfl, rfl⟩

/-- A completed generate click preserves the per-user accounting invariant:
it touches neither coins, nor ad-watched counters, nor the `ad_events`
table. -/
theorem generate_click_preserves_invariant (sess : SessionState) (db : DB)
    (result style img_hash : String) (now : Nat) (out : SessionState × DB)
    (hinv : dbInvariant db)
    (hok : generate_caption_click sess db result style img_hash now = .ok out) :
    dbInvariant out.2 := by
  rcases hcc : sess.caption_count with _ | cnt
  · unfold generate_caption_click at hok
    rw [hcc] at hok
    exact absurd hok (by simp)
  rcases haw : sess.ads_watched with _ | aw
  all_goals
    unfold generate_caption_click at hok
    rw [hcc, haw] at hok
    dsimp only at hok
  · exact absurd hok (by simp)
  by_cases hdis : generateDisabled cnt aw (adsRequired db) = true
  · rw [if_pos hdis] at hok
    exact absurd hok (by simp)
  rw [if_neg hdis] at hok
  rcases hgc : generate_caption result style with _ | cp
  · rw [hgc] at hok
    exact absurd hok (by simp)
  obtain ⟨caption, hashtags⟩ := cp
  rcases hui : sess.user_id with _ | uid
  · rw [hgc, hui] at hok
    exact absurd hok (by simp)
  rcases hde : sess.device_id with _ | dev
  · rw [hgc, hui, hde] at hok
    exact absurd hok (by simp)
  rw [hgc, hui, hde] at hok
  dsimp only at hok
  simp only [StepResult.ok.injEq] at hok
  subst hok
  intro u2 hu2
  simp only [List.mem_map] at hu2
  obtain ⟨u, hu, rfl⟩ := hu2
  have huinv := hinv u hu
  by_cases hd : u.device_id = dev
  · rw [if_pos hd]
    exact huinv
  · rw [if_neg hd]
    exact huinv

/-- C1 counterexample: the admin flow's coin grant adds 10 coins to a user
with no ad events, so the invariant — true before the grant — fails after
it. -/
theorem c1_counterexample_admin_grant :
    dbInvariant dbOneUserOnePlatform ∧
    ¬ dbInvariant (adminAddCoins dbOneUserOnePlatform 1 10) := by decide

/-- C1 (amended): each user's coin balance and ad-watched counter equal the
contributions of that user's `ad_events` rows, and this is preserved by user
registration (for an id without prior events), by ad completion and by
caption generation — but not by the admin flow's coin grant, which credits
coins without appending an `ad_events` row. -/
theorem c1_invariant_amended (db : DB) (hinv : dbInvariant db) :
    (∀ uid, dbInvariant (show_ads_to_user db uid).2) ∧
    (∀ newId dev, (∀ e ∈ db.ad_events, e.user_id ≠ newId) →
      dbInvariant (registerUser db newId dev)) ∧
    (∀ sess result style img_hash now out,
      generate_caption_click sess db result style img_hash now = .ok out →
      dbInvariant out.2) :=
  ⟨fun uid => show_ads_preserves_invariant db uid hinv,
   fun newId dev hfresh => register_preserves_invariant db newId dev hinv hfresh,
   fun _ _ _ _ _ out hok =>
     generate_click_preserves_invariant _ db _ _ _ _ out hinv hok⟩

/-- C1 witness: the invariant holds for the one-user database and is kept by
a completed ad view there. -/
theorem c1_invariant_amended_witness :
    dbInvariant dbOneUserOnePlatform ∧
    dbInvariant (show_ads_to_user dbOneUserOnePlatform 1).2 :=
  ⟨by decide, (c1_invariant_amended dbOneUserOnePlatform (by decide)).1 1⟩

/-- C9: a completed generate click appends exactly one caption row carrying
the session's user id, bumps the matching user row's caption count by one
and stamps its last-active time, leaves every row's coins and ad-watched
counters (and the other tables) untouched, and advances only the session's
caption counter. -/
theorem c9_generation_effects (sess : SessionState) (db : DB)
    (result style img_hash : String) (now : Nat)
    (sess2 : SessionState) (db2 : DB) (uid : Nat) (dev : String) (cnt : Nat)
    (u : UserRow)
    (huid : sess.user_id = some uid) (hdev : sess.device_id = some dev)
    (hcnt : sess.caption_count = some cnt)
    (hu : u ∈ db.users) (hid : u.id = uid) (hude : u.device_id = dev)
    (hok : generate_caption_click sess db result style img_hash now = .ok (sess2, db2)) :
    (∃ caption hashtags,
        generate_caption result style = some (caption, hashtags) ∧
        db2.captions = db.captions ++ [⟨uid, img_hash, caption, hashtags⟩]) ∧
    db2.users = db.users.map (fun v =>
      if v.device_id = dev then
        { v with caption_count := v.caption_count + 1, last_active := some now }
      else v) ∧
    { u with caption_count := u.caption_count + 1, last_active := some now } ∈ db2.users ∧
    (∀ v ∈ db2.users, ∃ w ∈ db.users,
        v.coins = w.coins ∧ v.ad_watched = w.ad_watched ∧ v.id = w.id) ∧
    db2.ad_events = db.ad_events ∧ db2.ad_configs = db.ad_configs ∧
    sess2.caption_count = some (cnt + 1) ∧
    sess2.coins = sess.coins ∧ sess2.ads_watched = sess.ads_watched := by
  rcases haw : sess.ads_watched with _ | aw
  · unfold generate_caption_click at hok
    rw [hcnt, haw] at hok
    dsimp only at hok
    exact absurd hok (by simp)
  · unfold generate_caption_click at hok
    rw [hcnt, haw] at hok
    dsimp only at hok
    by_cases hdis : generateDisabled cnt aw (adsRequired db) = true
    · rw [if_pos hdis] at hok
      exact absurd hok (by simp)
    · rw [if_neg hdis] at hok
      rcases hgc : generate_caption result style with _ | cp
      · rw [hgc] at hok
        exact absurd hok (by simp)
      · obtain ⟨caption, hashtags⟩ := cp
        rw [hgc, huid, hdev] at hok
        dsimp only at hok
        simp only [StepResult.ok.injEq, Prod.mk.injEq] at hok
        obtain ⟨hs2, hd2⟩ := hok
        subst hs2
        subst hd2
        refine ⟨⟨caption, hashtags, rfl, rfl⟩, rfl, ?_, ?_, rfl, rfl, rfl, rfl, rfl⟩
        · have hmem := List.mem_map_of_mem (f := fun v =>
            if v.device_id = dev then
              { v with caption_count := v.caption_count + 1, last_active := some now }
            else v) hu
          dsimp only at hmem
          rw [if_pos hude] at hmem
          exact hmem
        · intro v hv
          obtain ⟨w, hw, rfl⟩ := List.mem_map.mp hv
          by_cases hwd : w.device_id = dev
          · rw [if_pos hwd]
            exact ⟨w, hw, rfl, rfl, rfl⟩
          · rw [if_neg hwd]
            exact ⟨w, hw, rfl, rfl, rfl⟩

/-- C9 witness: from a session at counter 2 linked to `userW`, a generate
click on the description `"a cat sits"` completes and has the stated
effects. -/
theorem c9_generation_effects_witness :
    sessW.user_id = some 5 ∧ sessW.device_id = some "dev0" ∧
    sessW.caption_count = some 2 ∧ userW ∈ dbUserW.users ∧
    userW.id = 5 ∧ userW.device_id = "dev0" ∧
    generate_caption_click sessW dbUserW "a cat sits" "🤩 Smart" "h0" 7 =
      .ok (sessW2, dbUserW2) ∧
    (∃ caption hashtags,
        generate_caption "a cat sits" "🤩 Smart" = some (caption, hashtags) ∧
        dbUserW2.captions = dbUserW.captions ++ [⟨5, "h0", caption, hashtags⟩]) ∧
    dbUserW2.ad_events = dbUserW.ad_events ∧
    sessW2.caption_count = some 3 := by
  have hok : generate_caption_click sessW dbUserW "a cat sits" "🤩 Smart" "h0" 7 =
      .ok (sessW2, dbUserW2) := by decide
  have h := c9_generation_effects sessW dbUserW "a cat sits" "🤩 Smart" "h0" 7
    sessW2 dbUserW2 5 "dev0" 2 userW rfl rfl rfl (by decide) rfl rfl hok
  exact ⟨rfl, rfl, rfl, by decide, rfl, rfl, hok, h.1, h.2.2.2.2.1, h.2.2.2.2.2.2.1⟩

end InstaCaption
